import Mathlib

/-!
Shallow embedding of the client-side orchestration layer of the
questionnaireApp repository.  The repository holds three variants of the
same frontend script:

* `src/unnamed/part_000` — embedded here with prefix `v0` (template form
  with a sheet-URL field, upload form without a sheet-id field, plus a
  sheet-binding lookup `showSheetIdForTemplate`);
* `src/unnamed/part_001` — prefix `v1` (template form without a sheet-URL
  field, upload form with a sheet-id input);
* `src/frontend/script.js` — prefix `vs` (caches the bearer token in the
  module-level `currentUserIdToken`, no disable/enable of submit buttons,
  registry refresh done by re-invoking the auth-state callback).

External collaborators (identity provider, transport, document store) are
modelled by an oracle record `Ext` whose fields give the outcome of each
suspension point; a handler is then a pure function `St → Ext → Input → St`.
Observable effects that the claims talk about (requests issued, tokens
minted, tokens attached to requests, registry refreshes, store reads) are
tracked as counters/logs inside `St`.
-/

namespace QuestionnaireApp

/-- Result of an HTTP POST through the transport: `ok` is `res.ok`
(2xx status), `body` is `await res.text()`. -/
structure FetchResponse where
  ok : Bool
  body : String
deriving Repr, DecidableEq

/-- Result of the sheet-binding lookup GET: `ok` is `res.ok`; `json` is
`none` when `res.json()` throws (body not JSON), otherwise
`some sid` where `sid` is the `spreadsheetId` field — `none` for an
absent/null field. -/
structure LookupResponse where
  ok : Bool
  json : Option (Option String)
deriving Repr, DecidableEq

instance {ε α : Type} [DecidableEq ε] [DecidableEq α] : DecidableEq (Except ε α) := fun a b =>
  match a, b with
  | .error x, .error y =>
    if h : x = y then .isTrue (congrArg Except.error h)
    else .isFalse (fun hc => h (Except.error.inj hc))
  | .ok x, .ok y =>
    if h : x = y then .isTrue (congrArg Except.ok h)
    else .isFalse (fun hc => h (Except.ok.inj hc))
  | .error _, .ok _ => .isFalse (fun hc => Except.noConfusion hc)
  | .ok _, .error _ => .isFalse (fun hc => Except.noConfusion hc)

/-- Oracle for the external suspension points of one job:
`mint` is the outcome of `user.getIdToken()` (`.error m` = the provider
threw with message `m`); `fetch` is the outcome of the multipart POST
(`.error m` = network exception with message `m`); `lookup` is the outcome
of the sheet-binding GET (`none` = network exception); `storeReadOk` says
whether `getDocs` on the templates collection succeeds. -/
structure Ext where
  mint : Except String String := .error ""
  fetch : Except String FetchResponse := .error ""
  lookup : Option LookupResponse := none
  storeReadOk : Bool := true
deriving Repr, DecidableEq

/-- The observable client state.
`user` is `auth.currentUser` (its uid); `cachedToken` is script.js's
module-level `currentUserIdToken`; `store` is the remote per-user template
collection (names, in enumeration order); `templateCache` is the options of
`templateSelect` (the Template Registry cache); the three message fields
are `statusMessage`, `templateStatusMessage` and `currentSheetIdElement`;
`submitDisabled` is the disabled attribute of the submit button of the
active form; `tokenMints` counts successful token issuances by the
provider; `fetchCount` counts transport requests issued; `sentTokens` logs
the bearer token attached to each outbound request in order; `storeReads`
counts `getDocs` calls against the document store; `refreshes` counts
Template Registry refreshes. -/
structure St where
  user : Option String := none
  cachedToken : Option String := none
  store : List String := []
  templateCache : List String := []
  statusMessage : String := ""
  templateStatusMessage : String := ""
  currentSheetId : String := ""
  submitDisabled : Bool := false
  tokenMints : Nat := 0
  fetchCount : Nat := 0
  sentTokens : List String := []
  storeReads : Nat := 0
  refreshes : Nat := 0
deriving Repr, DecidableEq

/-- Input of the template-creation form: `templateName` is
`templateNameInput.value`, `hasFile` says whether `files[0]` exists,
`sheetUrl` is `sheetUrlInput.value` (read by part_000 only). -/
structure TemplateInput where
  templateName : String := ""
  hasFile : Bool := false
  sheetUrl : String := ""
deriving Repr, DecidableEq

/-- Input of the upload (document-extraction) form: `templateName` is
`templateSelect.value`, `spreadsheetId` is `sheetIdInput.value` (read by
part_001 and script.js), `numFiles` is `fileInput.files.length`. -/
structure UploadInput where
  templateName : String := ""
  spreadsheetId : String := ""
  numFiles : Nat := 0
deriving Repr, DecidableEq

/-- Embedding of JS `String.prototype.trim`: strips whitespace from both
ends.  (Defined structurally over the character list so that it computes
by kernel reduction.) -/
def jsTrim (s : String) : String :=
  ⟨((s.data.dropWhile Char.isWhitespace).reverse.dropWhile Char.isWhitespace).reverse⟩

/-- JS truthiness of `data.spreadsheetId`: null/undefined/empty are falsy. -/
def truthyOpt : Option String → Bool
  | none => false
  | some s => s ≠ ""

/-- Message of the `Error` thrown by `getIdToken` when `auth.currentUser`
is null. -/
def msgNotLoggedIn : String := "未ログインです"

/-- Prefix of the template-creation failure message in part_000/part_001. -/
def templateFailPrefix : String := "テンプレートの作成に失敗しました："

/-- Prefix of the upload failure message in part_000/part_001. -/
def uploadFailPrefix : String := "通信エラーが発生しました："

/-- Wrapper prefix of the upload success message. -/
def serverReplyPrefix : String := "サーバーからの返事: "

/-- Status message set by `loadTemplates` when the store read fails. -/
def msgLoadTemplatesFailed : String := "テンプレートの読み込みに失敗しました。"

/-- part_000 validation message of the template form. -/
def msgTemplateValidation0 : String :=
  "テンプレート名・シートURL・ファイルをすべて入力してください。"

/-- part_001/script.js validation message of the template form. -/
def msgTemplateValidation1 : String := "テンプレート名とファイルを選択してください。"

/-- part_000 validation message of the upload form. -/
def msgUploadValidation0 : String := "テンプレートとファイルを選択してください。"

/-- part_001/script.js validation message of the upload form. -/
def msgUploadValidation1 : String :=
  "テンプレート、シートID、ファイルすべてを選択・入力してください。"

/-- script.js guard message when `currentUserIdToken` is null. -/
def msgPleaseLogin : String := "ログインしてください。"

/-- script.js fixed template-creation failure message. -/
def msgVsTemplateFailed : String := "テンプレートの作成に失敗しました。"

/-- script.js fixed upload network-failure message. -/
def msgVsUploadFailed : String := "通信エラーが発生しました。"

/-- `currentSheetIdElement` text when no template is selected. -/
def msgSheetUnselected : String := "未選択"

/-- `currentSheetIdElement` text when the lookup answered but carried no
usable id (non-2xx or null/absent `spreadsheetId`). -/
def msgSheetCouldNotGet : String := "取得できませんでした"

/-- `currentSheetIdElement` text when the lookup threw. -/
def msgSheetError : String := "エラーが発生しました"

/-- The in-progress message of the upload handlers. -/
def uploadingMsg (n : Nat) : String :=
  "アップロード中... (" ++ toString n ++ "件)"

/-- The in-progress message of the template handlers. -/
def creatingMsg (name : String) : String :=
  "テンプレート「" ++ name ++ "」を作成中..."

/-- Modelled from the spec: the CreateTemplate endpoint's server-side write
to the document store is not part of this repository (only the client is
in `src/`); per §3 and §6 of the spec a successful creation stores a
per-user template record keyed by the template name. -/
def addTemplate (store : List String) (name : String) : List String :=
  if name ∈ store then store else store ++ [name]

/-- part_000 `resetTemplateSelect`: clears the options of `templateSelect`
and resets the sheet-id display. -/
def resetSelect0 (st : St) : St :=
  { st with templateCache := [], currentSheetId := msgSheetUnselected }

/-- part_001 `resetTemplateSelect`: clears the options of `templateSelect`. -/
def resetSelect1 (st : St) : St :=
  { st with templateCache := [] }

/-- part_000 `loadTemplates`: returns immediately when no user is signed in;
otherwise clears the select, then reads the templates collection and
repopulates; on a read failure the catch sets `statusMessage` (the cache
stays empty, having been cleared first).  The function never throws past
this boundary: the whole body after the user check sits in a try/catch. -/
def loadTemplates0 (st : St) (readOk : Bool) : St :=
  match st.user with
  | none => st
  | some _ =>
    let st := resetSelect0 st
    let st := { st with storeReads := st.storeReads + 1,
                        refreshes := st.refreshes + 1 }
    if readOk then { st with templateCache := st.store }
    else { st with statusMessage := msgLoadTemplatesFailed }

/-- part_001 `loadTemplates`: identical to part_000's except that its
`resetTemplateSelect` does not touch the sheet-id display. -/
def loadTemplates1 (st : St) (readOk : Bool) : St :=
  match st.user with
  | none => st
  | some _ =>
    let st := resetSelect1 st
    let st := { st with storeReads := st.storeReads + 1,
                        refreshes := st.refreshes + 1 }
    if readOk then { st with templateCache := st.store }
    else { st with statusMessage := msgLoadTemplatesFailed }

/-- part_000 `onAuthStateChanged` callback: on sign-in, `loadTemplates`;
on sign-out, `resetTemplateSelect` (clearing the registry cache). -/
def v0AuthCallback (st : St) (u : Option String) (ext : Ext) : St :=
  match u with
  | some uid => loadTemplates0 { st with user := some uid } ext.storeReadOk
  | none => resetSelect0 { st with user := none }

/-- part_001 `onAuthStateChanged` callback. -/
def v1AuthCallback (st : St) (u : Option String) (ext : Ext) : St :=
  match u with
  | some uid => loadTemplates1 { st with user := some uid } ext.storeReadOk
  | none => resetSelect1 { st with user := none }

/-- script.js `onAuthStateChanged` callback: on sign-in it mints a token
and caches it in `currentUserIdToken`, then reads the templates collection
and, on success, resets and repopulates `templateSelect` (there is no
try/catch: a failed mint or store read aborts the callback, leaving the
cache as it was).  On sign-out it only nulls the cached token — the
template options are NOT cleared. -/
def vsAuthCallback (st : St) (u : Option String) (ext : Ext) : St :=
  match u with
  | none => { st with user := none, cachedToken := none }
  | some uid =>
    let st := { st with user := some uid }
    match ext.mint with
    | .error _ => st
    | .ok tok =>
      let st := { st with cachedToken := some tok,
                          tokenMints := st.tokenMints + 1,
                          storeReads := st.storeReads + 1 }
      if ext.storeReadOk then
        { st with templateCache := st.store, refreshes := st.refreshes + 1 }
      else st

/-- part_000 template-form submit handler.  Order of operations as in the
source: `getIdToken()` first (throws when signed out), then read and trim
the inputs, validate, disable the submit button, POST, and on a 2xx
response show the body, reset the form and `loadTemplates()`; any throw is
caught and formatted with `templateFailPrefix`; the `finally` block always
re-enables the submit button. -/
def v0TemplateSubmit (st : St) (ext : Ext) (inp : TemplateInput) : St :=
  match st.user with
  | none =>
    { st with templateStatusMessage := templateFailPrefix ++ msgNotLoggedIn,
              submitDisabled := false }
  | some _ =>
    match ext.mint with
    | .error m =>
      { st with templateStatusMessage := templateFailPrefix ++ m,
                submitDisabled := false }
    | .ok tok =>
      let st := { st with tokenMints := st.tokenMints + 1 }
      let name := jsTrim inp.templateName
      let url := jsTrim inp.sheetUrl
      if name = "" ∨ inp.hasFile = false ∨ url = "" then
        { st with templateStatusMessage := msgTemplateValidation0,
                  submitDisabled := false }
      else
        let st := { st with submitDisabled := true,
                            templateStatusMessage := creatingMsg name,
                            fetchCount := st.fetchCount + 1,
                            sentTokens := st.sentTokens ++ [tok] }
        match ext.fetch with
        | .error m =>
          { st with templateStatusMessage := templateFailPrefix ++ m,
                    submitDisabled := false }
        | .ok res =>
          if res.ok then
            let st := { st with store := addTemplate st.store name,
                                templateStatusMessage := res.body }
            let st := loadTemplates0 st ext.storeReadOk
            { st with submitDisabled := false }
          else
            { st with templateStatusMessage := templateFailPrefix ++ res.body,
                      submitDisabled := false }

/-- part_000 upload-form submit handler: `getIdToken()` first, validation
(template selected and at least one file), disable, POST, and on 2xx show
the wrapped body, reset the form and select, `loadTemplates()`; caught
errors formatted with `uploadFailPrefix`; `finally` re-enables submit. -/
def v0UploadSubmit (st : St) (ext : Ext) (inp : UploadInput) : St :=
  match st.user with
  | none =>
    { st with statusMessage := uploadFailPrefix ++ msgNotLoggedIn,
              submitDisabled := false }
  | some _ =>
    match ext.mint with
    | .error m =>
      { st with statusMessage := uploadFailPrefix ++ m,
                submitDisabled := false }
    | .ok tok =>
      let st := { st with tokenMints := st.tokenMints + 1 }
      if inp.templateName = "" ∨ inp.numFiles = 0 then
        { st with statusMessage := msgUploadValidation0,
                  submitDisabled := false }
      else
        let st := { st with submitDisabled := true,
                            statusMessage := uploadingMsg inp.numFiles,
                            fetchCount := st.fetchCount + 1,
                            sentTokens := st.sentTokens ++ [tok] }
        match ext.fetch with
        | .error m =>
          { st with statusMessage := uploadFailPrefix ++ m,
                    submitDisabled := false }
        | .ok res =>
          if res.ok then
            let st := { st with statusMessage := serverReplyPrefix ++ res.body }
            let st := loadTemplates0 (resetSelect0 st) ext.storeReadOk
            { st with submitDisabled := false }
          else
            { st with statusMessage := uploadFailPrefix ++ res.body,
                      submitDisabled := false }

/-- part_000 `showSheetIdForTemplate`: with no user or no template name the
display reads 未選択; otherwise a fresh token is minted and an authenticated
GET issued; a 2xx response whose JSON carries a truthy `spreadsheetId`
shows it, any other response shows 取得できませんでした, and any throw
(mint, network, or JSON parse) shows エラーが発生しました. -/
def showSheetIdForTemplate (st : St) (ext : Ext) (templateName : String) : St :=
  if st.user = none ∨ templateName = "" then
    { st with currentSheetId := msgSheetUnselected }
  else
    match ext.mint with
    | .error _ => { st with currentSheetId := msgSheetError }
    | .ok tok =>
      let st := { st with tokenMints := st.tokenMints + 1,
                          fetchCount := st.fetchCount + 1,
                          sentTokens := st.sentTokens ++ [tok] }
      match ext.lookup with
      | none => { st with currentSheetId := msgSheetError }
      | some res =>
        match res.json with
        | none => { st with currentSheetId := msgSheetError }
        | some sid =>
          if res.ok && truthyOpt sid then
            { st with currentSheetId := sid.getD "" }
          else
            { st with currentSheetId := msgSheetCouldNotGet }

/-- part_001 template-form submit handler: like part_000's but without the
sheet-URL field, and refreshing through part_001's `loadTemplates`. -/
def v1TemplateSubmit (st : St) (ext : Ext) (inp : TemplateInput) : St :=
  match st.user with
  | none =>
    { st with templateStatusMessage := templateFailPrefix ++ msgNotLoggedIn,
              submitDisabled := false }
  | some _ =>
    match ext.mint with
    | .error m =>
      { st with templateStatusMessage := templateFailPrefix ++ m,
                submitDisabled := false }
    | .ok tok =>
      let st := { st with tokenMints := st.tokenMints + 1 }
      let name := jsTrim inp.templateName
      if name = "" ∨ inp.hasFile = false then
        { st with templateStatusMessage := msgTemplateValidation1,
                  submitDisabled := false }
      else
        let st := { st with submitDisabled := true,
                            templateStatusMessage := creatingMsg name,
                            fetchCount := st.fetchCount + 1,
                            sentTokens := st.sentTokens ++ [tok] }
        match ext.fetch with
        | .error m =>
          { st with templateStatusMessage := templateFailPrefix ++ m,
                    submitDisabled := false }
        | .ok res =>
          if res.ok then
            let st := { st with store := addTemplate st.store name,
                                templateStatusMessage := res.body }
            let st := loadTemplates1 st ext.storeReadOk
            { st with submitDisabled := false }
          else
            { st with templateStatusMessage := templateFailPrefix ++ res.body,
                      submitDisabled := false }

/-- part_001 upload-form submit handler: `getIdToken()` first, validation
(template, trimmed sheet id, at least one file), disable, POST, and on 2xx
the wrapped body (no registry refresh on this path); `finally` re-enables. -/
def v1UploadSubmit (st : St) (ext : Ext) (inp : UploadInput) : St :=
  match st.user with
  | none =>
    { st with statusMessage := uploadFailPrefix ++ msgNotLoggedIn,
              submitDisabled := false }
  | some _ =>
    match ext.mint with
    | .error m =>
      { st with statusMessage := uploadFailPrefix ++ m,
                submitDisabled := false }
    | .ok tok =>
      let st := { st with tokenMints := st.tokenMints + 1 }
      if inp.templateName = "" ∨ jsTrim inp.spreadsheetId = "" ∨ inp.numFiles = 0 then
        { st with statusMessage := msgUploadValidation1,
                  submitDisabled := false }
      else
        let st := { st with submitDisabled := true,
                            statusMessage := uploadingMsg inp.numFiles,
                            fetchCount := st.fetchCount + 1,
                            sentTokens := st.sentTokens ++ [tok] }
        match ext.fetch with
        | .error m =>
          { st with statusMessage := uploadFailPrefix ++ m,
                    submitDisabled := false }
        | .ok res =>
          if res.ok then
            { st with statusMessage := serverReplyPrefix ++ res.body,
                      submitDisabled := false }
          else
            { st with statusMessage := uploadFailPrefix ++ res.body,
                      submitDisabled := false }

/-- Modelled from the spec: script.js triggers its post-creation registry
refresh with `onAuthStateChanged(auth, auth.currentUser)`; §9 of the spec
describes this as an "implicit re-fetch via re-invoking the auth-state
callback" (a refresh hack).  The SDK's observer dispatch is an external
collaborator, so the hack is modelled per the spec's reading: the
auth-state callback runs again with the current user. -/
def vsRefreshHack (st : St) (ext : Ext) : St :=
  vsAuthCallback st st.user ext

/-- script.js template-form submit handler: guarded by the cached
`currentUserIdToken` (no fresh mint), untrimmed inputs, no disable of the
submit button; the POST attaches the cached token; the body is shown as
the message whatever the status, and on `response.ok` the refresh hack
runs.  The fixed catch message carries no error detail. -/
def vsTemplateSubmit (st : St) (ext : Ext) (inp : TemplateInput) : St :=
  match st.cachedToken with
  | none => { st with templateStatusMessage := msgPleaseLogin }
  | some tok =>
    if inp.templateName = "" ∨ inp.hasFile = false then
      { st with templateStatusMessage := msgTemplateValidation1 }
    else
      let st := { st with templateStatusMessage := creatingMsg inp.templateName,
                          fetchCount := st.fetchCount + 1,
                          sentTokens := st.sentTokens ++ [tok] }
      match ext.fetch with
      | .error _ => { st with templateStatusMessage := msgVsTemplateFailed }
      | .ok res =>
        let st := { st with templateStatusMessage := res.body }
        if res.ok then
          let st := { st with store := addTemplate st.store inp.templateName }
          vsRefreshHack st ext
        else st

/-- script.js upload-form submit handler (the one registered at line 154):
guarded by the cached `currentUserIdToken`, untrimmed sheet id, no disable
of the submit button; the POST attaches the cached token and the body is
wrapped with `serverReplyPrefix` regardless of the HTTP status. -/
def vsUploadSubmit (st : St) (ext : Ext) (inp : UploadInput) : St :=
  match st.cachedToken with
  | none => { st with statusMessage := msgPleaseLogin }
  | some tok =>
    if inp.templateName = "" ∨ inp.spreadsheetId = "" ∨ inp.numFiles = 0 then
      { st with statusMessage := msgUploadValidation1 }
    else
      let st := { st with statusMessage := uploadingMsg inp.numFiles,
                          fetchCount := st.fetchCount + 1,
                          sentTokens := st.sentTokens ++ [tok] }
      match ext.fetch with
      | .error _ => { st with statusMessage := msgVsUploadFailed }
      | .ok res => { st with statusMessage := serverReplyPrefix ++ res.body }

/-- A concrete signed-in script.js state: uid "u", token "t0" cached at
sign-in, registry cache holding the single template "a". -/
def vsDemoSignedIn : St :=
  { user := some "u", cachedToken := some "t0", templateCache := ["a"] }

/-- A concrete oracle: the provider mints "fresh", the POST answers 2xx
with body "done", the store read succeeds. -/
def demoOkExt : Ext :=
  { mint := .ok "fresh", fetch := .ok { ok := true, body := "done" } }

/-- A concrete structurally valid extraction input with one file. -/
def demoUpload : UploadInput :=
  { templateName := "t", spreadsheetId := "s", numFiles := 1 }

/-- A concrete extraction input with zero attached files. -/
def zeroFilesUpload : UploadInput :=
  { templateName := "t", spreadsheetId := "s", numFiles := 0 }

/-- A concrete signed-in part_000/part_001 state (no module-level token
cache) whose store holds the single template "a". -/
def v0DemoState : St := { user := some "u", store := ["a"] }

/-- A concrete structurally valid template-creation input. -/
def demoTemplate : TemplateInput :=
  { templateName := "n", hasFile := true, sheetUrl := "http" }

/-- A concrete oracle like `demoOkExt` except that the subsequent store
read (registry refresh) fails. -/
def extOkButReadFail : Ext :=
  { mint := .ok "fresh", fetch := .ok { ok := true, body := "done" },
    storeReadOk := false }

/-- The concrete state of the spec's extraction scenario: signed in, the
store holding the single template "summer-fest". -/
def summerFestState : St := { user := some "u", store := ["summer-fest"] }

/-- The spec's extraction-scenario input: template "summer-fest", sheet id
"abc123", two files. -/
def extractDemoInput : UploadInput :=
  { templateName := "summer-fest", spreadsheetId := "abc123", numFiles := 2 }

/-- The spec's extraction-scenario oracle: fresh token minted, 2xx response
with body "Processed 2 files". -/
def extractDemoExt : Ext :=
  { mint := .ok "tok", fetch := .ok { ok := true, body := "Processed 2 files" } }

/-- A concrete oracle where the sheet-binding lookup returns HTTP 404 with
a JSON body carrying no `spreadsheetId`. -/
def ext404 : Ext :=
  { mint := .ok "t", lookup := some { ok := false, json := some none } }

/-- A concrete oracle where the sheet-binding lookup returns 2xx with
`spreadsheetId: null`. -/
def extNull2xx : Ext :=
  { mint := .ok "t", lookup := some { ok := true, json := some none } }

/-! ## Helper lemmas -/

theorem loadTemplates0_frame (st : St) (b : Bool) :
    (loadTemplates0 st b).sentTokens = st.sentTokens ∧
    (loadTemplates0 st b).tokenMints = st.tokenMints ∧
    (loadTemplates0 st b).fetchCount = st.fetchCount ∧
    (loadTemplates0 st b).submitDisabled = st.submitDisabled ∧
    (loadTemplates0 st b).user = st.user ∧
    (loadTemplates0 st b).store = st.store ∧
    (loadTemplates0 st b).cachedToken = st.cachedToken := by
  unfold loadTemplates0 resetSelect0
  cases h : st.user <;> cases b <;> simp [h]

theorem loadTemplates1_frame (st : St) (b : Bool) :
    (loadTemplates1 st b).sentTokens = st.sentTokens ∧
    (loadTemplates1 st b).tokenMints = st.tokenMints ∧
    (loadTemplates1 st b).fetchCount = st.fetchCount ∧
    (loadTemplates1 st b).submitDisabled = st.submitDisabled ∧
    (loadTemplates1 st b).user = st.user ∧
    (loadTemplates1 st b).store = st.store ∧
    (loadTemplates1 st b).cachedToken = st.cachedToken := by
  unfold loadTemplates1 resetSelect1
  cases h : st.user <;> cases b <;> simp [h]

theorem loadTemplates0_sentTokens (st : St) (b : Bool) :
    (loadTemplates0 st b).sentTokens = st.sentTokens :=
  (loadTemplates0_frame st b).1

theorem loadTemplates0_tokenMints (st : St) (b : Bool) :
    (loadTemplates0 st b).tokenMints = st.tokenMints :=
  (loadTemplates0_frame st b).2.1

theorem loadTemplates0_fetchCount (st : St) (b : Bool) :
    (loadTemplates0 st b).fetchCount = st.fetchCount :=
  (loadTemplates0_frame st b).2.2.1

theorem loadTemplates0_store (st : St) (b : Bool) :
    (loadTemplates0 st b).store = st.store :=
  (loadTemplates0_frame st b).2.2.2.2.2.1

theorem loadTemplates1_sentTokens (st : St) (b : Bool) :
    (loadTemplates1 st b).sentTokens = st.sentTokens :=
  (loadTemplates1_frame st b).1

theorem loadTemplates1_tokenMints (st : St) (b : Bool) :
    (loadTemplates1 st b).tokenMints = st.tokenMints :=
  (loadTemplates1_frame st b).2.1

theorem loadTemplates1_fetchCount (st : St) (b : Bool) :
    (loadTemplates1 st b).fetchCount = st.fetchCount :=
  (loadTemplates1_frame st b).2.2.1

theorem loadTemplates1_store (st : St) (b : Bool) :
    (loadTemplates1 st b).store = st.store :=
  (loadTemplates1_frame st b).2.2.2.2.2.1

theorem mem_addTemplate (store : List String) (name : String) :
    name ∈ addTemplate store name := by
  unfold addTemplate
  split
  · assumption
  · simp

theorem loadTemplates0_statusMessage_ok (st : St) :
    (loadTemplates0 st true).statusMessage = st.statusMessage := by
  unfold loadTemplates0 resetSelect0
  cases h : st.user <;> simp [h]

theorem loadTemplates0_refreshes_some (st : St) (b : Bool) (u : String)
    (hu : st.user = some u) :
    (loadTemplates0 st b).refreshes = st.refreshes + 1 := by
  unfold loadTemplates0 resetSelect0
  rw [hu]
  cases b <;> simp

theorem loadTemplates0_cache_ok (st : St) (u : String) (hu : st.user = some u) :
    (loadTemplates0 st true).templateCache = st.store := by
  unfold loadTemplates0 resetSelect0
  rw [hu]
  simp

theorem loadTemplates1_refreshes_some (st : St) (b : Bool) (u : String)
    (hu : st.user = some u) :
    (loadTemplates1 st b).refreshes = st.refreshes + 1 := by
  unfold loadTemplates1 resetSelect1
  rw [hu]
  cases b <;> simp

theorem loadTemplates1_cache_ok (st : St) (u : String) (hu : st.user = some u) :
    (loadTemplates1 st true).templateCache = st.store := by
  unfold loadTemplates1 resetSelect1
  rw [hu]
  simp

theorem mem_loadTemplates0_cache (st : St) (u nm : String)
    (hu : st.user = some u) (h : nm ∈ st.store) :
    nm ∈ (loadTemplates0 st true).templateCache := by
  rw [loadTemplates0_cache_ok st u hu]
  exact h

theorem mem_loadTemplates1_cache (st : St) (u nm : String)
    (hu : st.user = some u) (h : nm ∈ st.store) :
    nm ∈ (loadTemplates1 st true).templateCache := by
  rw [loadTemplates1_cache_ok st u hu]
  exact h

/-! ## Claim theorems -/

/-- C10: with no active session, the Template Registry refresh
(`loadTemplates` of part_000 and of part_001) is a no-op: it returns the
state unchanged — in particular the cached template list is neither
cleared nor extended, and no store read is issued (the `storeReads`
counter is part of the state equality). -/
theorem C10_refresh_noop_without_session (st : St) (b : Bool) (hu : st.user = none) :
    loadTemplates0 st b = st ∧ loadTemplates1 st b = st := by
  unfold loadTemplates0 loadTemplates1
  rw [hu]
  exact ⟨rfl, rfl⟩

/-- Witness for C10 at the all-default state, whose `user` is `none`. -/
theorem C10_witness :
    loadTemplates0 {} true = ({} : St) ∧ loadTemplates1 {} true = ({} : St) :=
  C10_refresh_noop_without_session {} true rfl

/-- C3: counterexample — in the script.js variant, the sign-out branch of
the auth-state callback only nulls the cached token; with the registry
cache holding `["a"]`, a subsequent read of the cache after sign-out still
returns `["a"]`, not the empty set required by the claim. -/
theorem C3_counterexample :
    (vsAuthCallback vsDemoSignedIn none {}).templateCache = ["a"] ∧
    (vsAuthCallback vsDemoSignedIn none {}).templateCache ≠ [] := by
  exact ⟨rfl, by decide⟩

/-- C3 (amended): the part_000 and part_001 variants clear the Template
Registry cache synchronously in the sign-out branch of the auth-state
callback, so a subsequent read returns the empty set; the script.js
variant instead only nulls its cached bearer token and leaves the cached
template list untouched. -/
theorem C3_signout_clears_registry (st : St) (ext : Ext) :
    (v0AuthCallback st none ext).templateCache = [] ∧
    (v1AuthCallback st none ext).templateCache = [] ∧
    (vsAuthCallback st none ext).templateCache = st.templateCache ∧
    (vsAuthCallback st none ext).cachedToken = none := by
  unfold v0AuthCallback v1AuthCallback vsAuthCallback resetSelect0 resetSelect1
  simp

/-- C7: on every exit path of every submit handler the part_000 and
part_001 variants leave the submit control enabled (their `finally` block
always removes the disabled attribute), and the script.js handlers never
touch the disabled attribute at all — so no handler can leave the UI
stuck in a disabled state it introduced. -/
theorem C7_submit_control_restored (st : St) (ext : Ext)
    (tin : TemplateInput) (uin : UploadInput) :
    (v0TemplateSubmit st ext tin).submitDisabled = false ∧
    (v0UploadSubmit st ext uin).submitDisabled = false ∧
    (v1TemplateSubmit st ext tin).submitDisabled = false ∧
    (v1UploadSubmit st ext uin).submitDisabled = false ∧
    (vsTemplateSubmit st ext tin).submitDisabled = st.submitDisabled ∧
    (vsUploadSubmit st ext uin).submitDisabled = st.submitDisabled := by
  unfold v0TemplateSubmit v0UploadSubmit v1TemplateSubmit v1UploadSubmit
    vsTemplateSubmit vsUploadSubmit vsRefreshHack vsAuthCallback
  refine ⟨?_, ?_, ?_, ?_, ?_, ?_⟩ <;>
    · dsimp only
      repeat' split
      all_goals rfl

/-- C8: in the source the whole refresh body after the session check sits
inside try/catch, so `loadTemplates` is embedded as a total function
(nothing propagates past the boundary).  With a session, the resulting
cache equals the full store contents on a successful read and the empty
list on a failed read — in either case independent of the prior cache
(wholesale clear-and-repopulate, no incremental merge) — and a failed read
additionally surfaces the recoverable-error signal in `statusMessage`. -/
theorem C8_refresh_total_wholesale (st : St) (u : String) (b : Bool)
    (hu : st.user = some u) :
    ((loadTemplates0 st b).templateCache = if b then st.store else []) ∧
    (b = false → (loadTemplates0 st b).statusMessage = msgLoadTemplatesFailed) ∧
    ((loadTemplates1 st b).templateCache = if b then st.store else []) ∧
    (b = false → (loadTemplates1 st b).statusMessage = msgLoadTemplatesFailed) := by
  unfold loadTemplates0 loadTemplates1 resetSelect0 resetSelect1
  rw [hu]
  cases b <;> simp

/-- Witness for C8 at a concrete signed-in state with a failing store
read: the cache is cleared and the error message raised. -/
theorem C8_witness :
    ((loadTemplates0 v0DemoState false).templateCache =
      if false then v0DemoState.store else []) ∧
    (false = false →
      (loadTemplates0 v0DemoState false).statusMessage = msgLoadTemplatesFailed) ∧
    ((loadTemplates1 v0DemoState false).templateCache =
      if false then v0DemoState.store else []) ∧
    (false = false →
      (loadTemplates1 v0DemoState false).statusMessage = msgLoadTemplatesFailed) :=
  C8_refresh_total_wholesale v0DemoState "u" false rfl

/-- C9: counterexample — an HTTP 404 from the sheet-binding lookup (a
non-2xx response whose JSON body carries no `spreadsheetId`) and a
successful 2xx response carrying `spreadsheetId: null` produce the same
observable display 取得できませんでした, so the two outcomes are NOT
observably distinguishable as the claim requires. -/
theorem C9_counterexample :
    (showSheetIdForTemplate v0DemoState ext404 "x").currentSheetId =
      (showSheetIdForTemplate v0DemoState extNull2xx "x").currentSheetId ∧
    (showSheetIdForTemplate v0DemoState ext404 "x").currentSheetId =
      msgSheetCouldNotGet := by
  exact ⟨rfl, rfl⟩

/-- C9 (amended): a sheet-binding lookup that fails at the network level
(fetch or JSON parsing throws) displays エラーが発生しました, which differs
from the 取得できませんでした shown for an explicitly unresolved binding;
but an HTTP-level failure (non-2xx whose body still parses as JSON) shows
the same 取得できませんでした as a 2xx response with a null
`spreadsheetId` — only thrown errors are distinguishable, not HTTP-status
failures. -/
theorem C9_lookup_failure_display (st : St) (ext : Ext) (u nm tok : String)
    (hu : st.user = some u) (hn : nm ≠ "") (hm : ext.mint = .ok tok) :
    (ext.lookup = none →
      (showSheetIdForTemplate st ext nm).currentSheetId = msgSheetError) ∧
    (∀ r j, ext.lookup = some r → r.ok = false → r.json = some j →
      (showSheetIdForTemplate st ext nm).currentSheetId = msgSheetCouldNotGet) ∧
    (∀ r, ext.lookup = some r → r.ok = true → r.json = some none →
      (showSheetIdForTemplate st ext nm).currentSheetId = msgSheetCouldNotGet) ∧
    msgSheetError ≠ msgSheetCouldNotGet := by
  unfold showSheetIdForTemplate
  rw [hu, hm]
  refine ⟨?_, ?_, ?_, by decide⟩
  · intro hl
    simp [hn, hl]
  · intro r j hl hok hj
    simp [hn, hl, hok, hj]
  · intro r hl hok hj
    simp [hn, hl, hok, hj, truthyOpt]

/-- Witness for C9's amended theorem at the concrete 404 oracle. -/
theorem C9_witness :
    (ext404.lookup = none →
      (showSheetIdForTemplate v0DemoState ext404 "x").currentSheetId = msgSheetError) ∧
    (∀ r j, ext404.lookup = some r → r.ok = false → r.json = some j →
      (showSheetIdForTemplate v0DemoState ext404 "x").currentSheetId = msgSheetCouldNotGet) ∧
    (∀ r, ext404.lookup = some r → r.ok = true → r.json = some none →
      (showSheetIdForTemplate v0DemoState ext404 "x").currentSheetId = msgSheetCouldNotGet) ∧
    msgSheetError ≠ msgSheetCouldNotGet :=
  C9_lookup_failure_display v0DemoState ext404 "u" "x" "t" rfl (by decide) rfl

/-- C1: counterexample — in the script.js variant two successive
document-extraction submissions issue two authenticated requests that
both carry the token "t0" cached at sign-in; no fresh token is minted
during either job, refuting the claim that every outbound authenticated
request obtains its own fresh token immediately before sending and that
the token is never cached and reused across separate requests. -/
theorem C1_counterexample :
    (vsUploadSubmit (vsUploadSubmit vsDemoSignedIn demoOkExt demoUpload)
        demoOkExt demoUpload).fetchCount = 2 ∧
    (vsUploadSubmit (vsUploadSubmit vsDemoSignedIn demoOkExt demoUpload)
        demoOkExt demoUpload).sentTokens = ["t0", "t0"] ∧
    (vsUploadSubmit (vsUploadSubmit vsDemoSignedIn demoOkExt demoUpload)
        demoOkExt demoUpload).tokenMints = 0 := by
  exact ⟨rfl, rfl, rfl⟩

/-- C1 (amended): in the part_000 and part_001 variants every outbound
authenticated request (template-creation POST, document-extraction POST,
sheet-binding lookup GET) carries exactly the token freshly minted by
`getIdToken` within the same job — either the job issues no request and
the request log is unchanged, or the log grows by exactly the fresh token
and the mint count by one.  (The script.js variant instead reuses the
token cached at sign-in, as its counterexample shows.) -/
theorem C1_fresh_token_per_request (st : St) (ext : Ext)
    (tin : TemplateInput) (uin : UploadInput) (nm tok : String)
    (hm : ext.mint = .ok tok) :
    ((v0TemplateSubmit st ext tin).sentTokens = st.sentTokens ∨
      ((v0TemplateSubmit st ext tin).sentTokens = st.sentTokens ++ [tok] ∧
       (v0TemplateSubmit st ext tin).tokenMints = st.tokenMints + 1)) ∧
    ((v0UploadSubmit st ext uin).sentTokens = st.sentTokens ∨
      ((v0UploadSubmit st ext uin).sentTokens = st.sentTokens ++ [tok] ∧
       (v0UploadSubmit st ext uin).tokenMints = st.tokenMints + 1)) ∧
    ((v1TemplateSubmit st ext tin).sentTokens = st.sentTokens ∨
      ((v1TemplateSubmit st ext tin).sentTokens = st.sentTokens ++ [tok] ∧
       (v1TemplateSubmit st ext tin).tokenMints = st.tokenMints + 1)) ∧
    ((v1UploadSubmit st ext uin).sentTokens = st.sentTokens ∨
      ((v1UploadSubmit st ext uin).sentTokens = st.sentTokens ++ [tok] ∧
       (v1UploadSubmit st ext uin).tokenMints = st.tokenMints + 1)) ∧
    ((showSheetIdForTemplate st ext nm).sentTokens = st.sentTokens ∨
      ((showSheetIdForTemplate st ext nm).sentTokens = st.sentTokens ++ [tok] ∧
       (showSheetIdForTemplate st ext nm).tokenMints = st.tokenMints + 1)) := by
  refine ⟨?_, ?_, ?_, ?_, ?_⟩
  · unfold v0TemplateSubmit
    rw [hm]
    dsimp only
    repeat' split
    all_goals simp [loadTemplates0_sentTokens, loadTemplates0_tokenMints]
  · unfold v0UploadSubmit
    rw [hm]
    dsimp only
    repeat' split
    all_goals simp [loadTemplates0_sentTokens, loadTemplates0_tokenMints, resetSelect0]
  · unfold v1TemplateSubmit
    rw [hm]
    dsimp only
    repeat' split
    all_goals simp [loadTemplates1_sentTokens, loadTemplates1_tokenMints]
  · unfold v1UploadSubmit
    rw [hm]
    dsimp only
    repeat' split
    all_goals simp
  · unfold showSheetIdForTemplate
    rw [hm]
    dsimp only
    repeat' split
    all_goals simp

/-- Witness for C1's amended theorem at concrete inputs: each part_000 and
part_001 handler run with valid inputs and a 2xx response. -/
theorem C1_witness :
    ((v0TemplateSubmit v0DemoState demoOkExt demoTemplate).sentTokens = v0DemoState.sentTokens ∨
      ((v0TemplateSubmit v0DemoState demoOkExt demoTemplate).sentTokens = v0DemoState.sentTokens ++ ["fresh"] ∧
       (v0TemplateSubmit v0DemoState demoOkExt demoTemplate).tokenMints = v0DemoState.tokenMints + 1)) ∧
    ((v0UploadSubmit v0DemoState demoOkExt demoUpload).sentTokens = v0DemoState.sentTokens ∨
      ((v0UploadSubmit v0DemoState demoOkExt demoUpload).sentTokens = v0DemoState.sentTokens ++ ["fresh"] ∧
       (v0UploadSubmit v0DemoState demoOkExt demoUpload).tokenMints = v0DemoState.tokenMints + 1)) ∧
    ((v1TemplateSubmit v0DemoState demoOkExt demoTemplate).sentTokens = v0DemoState.sentTokens ∨
      ((v1TemplateSubmit v0DemoState demoOkExt demoTemplate).sentTokens = v0DemoState.sentTokens ++ ["fresh"] ∧
       (v1TemplateSubmit v0DemoState demoOkExt demoTemplate).tokenMints = v0DemoState.tokenMints + 1)) ∧
    ((v1UploadSubmit v0DemoState demoOkExt demoUpload).sentTokens = v0DemoState.sentTokens ∨
      ((v1UploadSubmit v0DemoState demoOkExt demoUpload).sentTokens = v0DemoState.sentTokens ++ ["fresh"] ∧
       (v1UploadSubmit v0DemoState demoOkExt demoUpload).tokenMints = v0DemoState.tokenMints + 1)) ∧
    ((showSheetIdForTemplate v0DemoState demoOkExt "x").sentTokens = v0DemoState.sentTokens ∨
      ((showSheetIdForTemplate v0DemoState demoOkExt "x").sentTokens = v0DemoState.sentTokens ++ ["fresh"] ∧
       (showSheetIdForTemplate v0DemoState demoOkExt "x").tokenMints = v0DemoState.tokenMints + 1)) :=
  C1_fresh_token_per_request v0DemoState demoOkExt demoTemplate demoUpload "x" "fresh" rfl

/-- C2: counterexample — in part_001 the upload handler calls
`getIdToken()` BEFORE validation, so a job with zero attached files,
though it does terminate in a failed state with no POST issued, has
already acquired a bearer token (`tokenMints = 1`), refuting the claim's
"without acquiring a bearer token". -/
theorem C2_counterexample :
    (v1UploadSubmit v0DemoState demoOkExt zeroFilesUpload).fetchCount = 0 ∧
    (v1UploadSubmit v0DemoState demoOkExt zeroFilesUpload).tokenMints = 1 ∧
    (v1UploadSubmit v0DemoState demoOkExt zeroFilesUpload).statusMessage =
      msgUploadValidation1 := by
  refine ⟨by decide, by decide, by decide⟩

/-- C2 (amended): every UploadJob whose structural validation fails — for
each variant, exactly its own validation condition: no template selected,
the sheet-id field empty where the variant reads one, or zero attached
files — terminates with the validation-failure message, no transport
request and no token attached to any request, and the submit control
enabled; but in part_000/part_001 a bearer token has already been
acquired before validation runs (the short-circuit avoids the POST, not
the token acquisition), while the script.js variant acquires no token
within the job. -/
theorem C2_validation_short_circuit (st : St) (ext : Ext) (inp : UploadInput)
    (u tok : String) (hu : st.user = some u) (hm : ext.mint = .ok tok) :
    (inp.templateName = "" ∨ inp.numFiles = 0 →
     ((v0UploadSubmit st ext inp).fetchCount = st.fetchCount ∧
      (v0UploadSubmit st ext inp).sentTokens = st.sentTokens ∧
      (v0UploadSubmit st ext inp).tokenMints = st.tokenMints + 1 ∧
      (v0UploadSubmit st ext inp).statusMessage = msgUploadValidation0 ∧
      (v0UploadSubmit st ext inp).submitDisabled = false)) ∧
    (inp.templateName = "" ∨ jsTrim inp.spreadsheetId = "" ∨ inp.numFiles = 0 →
     ((v1UploadSubmit st ext inp).fetchCount = st.fetchCount ∧
      (v1UploadSubmit st ext inp).sentTokens = st.sentTokens ∧
      (v1UploadSubmit st ext inp).tokenMints = st.tokenMints + 1 ∧
      (v1UploadSubmit st ext inp).statusMessage = msgUploadValidation1 ∧
      (v1UploadSubmit st ext inp).submitDisabled = false)) ∧
    (∀ c, st.cachedToken = some c →
     inp.templateName = "" ∨ inp.spreadsheetId = "" ∨ inp.numFiles = 0 →
     ((vsUploadSubmit st ext inp).fetchCount = st.fetchCount ∧
      (vsUploadSubmit st ext inp).tokenMints = st.tokenMints ∧
      (vsUploadSubmit st ext inp).statusMessage = msgUploadValidation1)) := by
  unfold v0UploadSubmit v1UploadSubmit vsUploadSubmit
  rw [hu, hm]
  refine ⟨?_, ?_, ?_⟩
  · intro hv
    try dsimp only
    rw [if_pos hv]
    exact ⟨rfl, rfl, rfl, rfl, rfl⟩
  · intro hv
    try dsimp only
    rw [if_pos hv]
    exact ⟨rfl, rfl, rfl, rfl, rfl⟩
  · intro c hc hv
    rw [hc]
    try dsimp only
    rw [if_pos hv]
    exact ⟨rfl, rfl, rfl⟩

/-- Witness for C2's amended theorem: a signed-in state (with script.js's
token cache also populated) and a zero-file submission. -/
theorem C2_witness :
    (zeroFilesUpload.templateName = "" ∨ zeroFilesUpload.numFiles = 0 →
     ((v0UploadSubmit vsDemoSignedIn demoOkExt zeroFilesUpload).fetchCount = vsDemoSignedIn.fetchCount ∧
      (v0UploadSubmit vsDemoSignedIn demoOkExt zeroFilesUpload).sentTokens = vsDemoSignedIn.sentTokens ∧
      (v0UploadSubmit vsDemoSignedIn demoOkExt zeroFilesUpload).tokenMints = vsDemoSignedIn.tokenMints + 1 ∧
      (v0UploadSubmit vsDemoSignedIn demoOkExt zeroFilesUpload).statusMessage = msgUploadValidation0 ∧
      (v0UploadSubmit vsDemoSignedIn demoOkExt zeroFilesUpload).submitDisabled = false)) ∧
    (zeroFilesUpload.templateName = "" ∨ jsTrim zeroFilesUpload.spreadsheetId = "" ∨
       zeroFilesUpload.numFiles = 0 →
     ((v1UploadSubmit vsDemoSignedIn demoOkExt zeroFilesUpload).fetchCount = vsDemoSignedIn.fetchCount ∧
      (v1UploadSubmit vsDemoSignedIn demoOkExt zeroFilesUpload).sentTokens = vsDemoSignedIn.sentTokens ∧
      (v1UploadSubmit vsDemoSignedIn demoOkExt zeroFilesUpload).tokenMints = vsDemoSignedIn.tokenMints + 1 ∧
      (v1UploadSubmit vsDemoSignedIn demoOkExt zeroFilesUpload).statusMessage = msgUploadValidation1 ∧
      (v1UploadSubmit vsDemoSignedIn demoOkExt zeroFilesUpload).submitDisabled = false)) ∧
    (∀ c, vsDemoSignedIn.cachedToken = some c →
     zeroFilesUpload.templateName = "" ∨ zeroFilesUpload.spreadsheetId = "" ∨
       zeroFilesUpload.numFiles = 0 →
     ((vsUploadSubmit vsDemoSignedIn demoOkExt zeroFilesUpload).fetchCount = vsDemoSignedIn.fetchCount ∧
      (vsUploadSubmit vsDemoSignedIn demoOkExt zeroFilesUpload).tokenMints = vsDemoSignedIn.tokenMints ∧
      (vsUploadSubmit vsDemoSignedIn demoOkExt zeroFilesUpload).statusMessage = msgUploadValidation1)) :=
  C2_validation_short_circuit vsDemoSignedIn demoOkExt zeroFilesUpload "u" "fresh" rfl rfl

/-- C5: counterexample — in part_000 the upload handler runs
`loadTemplates()` AFTER setting the wrapped success message; when that
registry read fails, its catch overwrites `statusMessage` with the
load-failure message, so a job whose POST received 2xx with body "done"
ends with a status different from the claimed wrapper text. -/
theorem C5_counterexample :
    (v0UploadSubmit v0DemoState extOkButReadFail demoUpload).statusMessage =
      msgLoadTemplatesFailed ∧
    (v0UploadSubmit v0DemoState extOkButReadFail demoUpload).statusMessage ≠
      serverReplyPrefix ++ "done" := by
  exact ⟨rfl, by decide⟩

/-- C5 (amended): for a document-extraction job with valid inputs whose
POST receives 2xx with body B, the exposed status equals
`サーバーからの返事: ` ++ B verbatim and the submit control is enabled on
completion — unconditionally in part_001, and in part_000 provided the
post-completion registry refresh succeeds (a failing refresh overwrites
the message with the load-failure text, as the counterexample shows). -/
theorem C5_extract_success_message (st : St) (ext : Ext) (inp : UploadInput)
    (u tok body : String) (hu : st.user = some u) (hm : ext.mint = .ok tok)
    (hname : inp.templateName ≠ "") (hsheet : jsTrim inp.spreadsheetId ≠ "")
    (hfiles : inp.numFiles ≠ 0)
    (hf : ext.fetch = .ok { ok := true, body := body }) :
    (ext.storeReadOk = true →
      (v0UploadSubmit st ext inp).statusMessage = serverReplyPrefix ++ body) ∧
    (v0UploadSubmit st ext inp).submitDisabled = false ∧
    (v1UploadSubmit st ext inp).statusMessage = serverReplyPrefix ++ body ∧
    (v1UploadSubmit st ext inp).submitDisabled = false := by
  unfold v0UploadSubmit v1UploadSubmit
  rw [hu, hm, hf]
  dsimp only
  refine ⟨?_, ?_, ?_, ?_⟩
  · intro hread
    rw [hread]
    simp [hname, hfiles, loadTemplates0_statusMessage_ok, resetSelect0]
  · simp [hname, hfiles]
  · simp [hname, hsheet, hfiles]
  · simp [hname, hsheet, hfiles]

/-- Witness for C5's amended theorem at the spec's scenario: template
"summer-fest", sheet id "abc123", two files, body "Processed 2 files". -/
theorem C5_witness :
    (extractDemoExt.storeReadOk = true →
      (v0UploadSubmit summerFestState extractDemoExt extractDemoInput).statusMessage =
        serverReplyPrefix ++ "Processed 2 files") ∧
    (v0UploadSubmit summerFestState extractDemoExt extractDemoInput).submitDisabled = false ∧
    (v1UploadSubmit summerFestState extractDemoExt extractDemoInput).statusMessage =
      serverReplyPrefix ++ "Processed 2 files" ∧
    (v1UploadSubmit summerFestState extractDemoExt extractDemoInput).submitDisabled = false :=
  C5_extract_success_message summerFestState extractDemoExt extractDemoInput
    "u" "tok" "Processed 2 files" rfl rfl (by decide) (by decide) (by decide) rfl

/-- C6: with no active session, every workflow invocation terminates with
only its unauthenticated message and no other effect: the part_000 and
part_001 handlers throw 未ログインです inside `getIdToken` before any
provider call, so no token is minted, no request is sent, and no state
other than the message changes; the script.js handlers are guarded by the
null `currentUserIdToken` and only set ログインしてください。. -/
theorem C6_unauthenticated_no_request (st : St) (ext : Ext)
    (tin : TemplateInput) (uin : UploadInput)
    (hu : st.user = none) (hd : st.submitDisabled = false) :
    v0TemplateSubmit st ext tin =
      { st with templateStatusMessage := templateFailPrefix ++ msgNotLoggedIn } ∧
    v0UploadSubmit st ext uin =
      { st with statusMessage := uploadFailPrefix ++ msgNotLoggedIn } ∧
    v1TemplateSubmit st ext tin =
      { st with templateStatusMessage := templateFailPrefix ++ msgNotLoggedIn } ∧
    v1UploadSubmit st ext uin =
      { st with statusMessage := uploadFailPrefix ++ msgNotLoggedIn } ∧
    (st.cachedToken = none →
      vsTemplateSubmit st ext tin =
        { st with templateStatusMessage := msgPleaseLogin } ∧
      vsUploadSubmit st ext uin = { st with statusMessage := msgPleaseLogin }) := by
  rcases st with ⟨su, sc, sst, stc, sm, stm, scs, ssd, stk, sfc, sse, ssr, srf⟩
  dsimp at hu hd
  subst hu
  subst hd
  refine ⟨rfl, rfl, rfl, rfl, ?_⟩
  intro hc
  dsimp at hc
  subst hc
  exact ⟨rfl, rfl⟩

/-- Witness for C6 at the all-default (signed-out) state. -/
theorem C6_witness :
    v0TemplateSubmit {} {} {} =
      { ({} : St) with templateStatusMessage := templateFailPrefix ++ msgNotLoggedIn } ∧
    v0UploadSubmit {} {} {} =
      { ({} : St) with statusMessage := uploadFailPrefix ++ msgNotLoggedIn } ∧
    v1TemplateSubmit {} {} {} =
      { ({} : St) with templateStatusMessage := templateFailPrefix ++ msgNotLoggedIn } ∧
    v1UploadSubmit {} {} {} =
      { ({} : St) with statusMessage := uploadFailPrefix ++ msgNotLoggedIn } ∧
    (St.cachedToken {} = none →
      vsTemplateSubmit {} {} {} =
        { ({} : St) with templateStatusMessage := msgPleaseLogin } ∧
      vsUploadSubmit {} {} {} = { ({} : St) with statusMessage := msgPleaseLogin }) :=
  C6_unauthenticated_no_request {} {} {} {} rfl rfl

/-- C4: for a template-creation job with valid inputs whose POST receives
2xx, all three variants trigger exactly one Template Registry refresh
after the response (part_000/part_001 call `loadTemplates` directly;
script.js re-invokes the auth-state callback — modelled from the spec's
§9 reading of that hack), the created name appears in the refreshed
listing, and no variant refreshes on a non-2xx response. -/
theorem C4_create_triggers_refresh (st : St) (ext : Ext) (inp : TemplateInput)
    (u tok body : String) (hu : st.user = some u) (hm : ext.mint = .ok tok)
    (hname : jsTrim inp.templateName ≠ "") (hfile : inp.hasFile = true)
    (hurl : jsTrim inp.sheetUrl ≠ "") (hread : ext.storeReadOk = true) :
    (ext.fetch = .ok { ok := true, body := body } →
      ((v0TemplateSubmit st ext inp).refreshes = st.refreshes + 1 ∧
       jsTrim inp.templateName ∈ (v0TemplateSubmit st ext inp).templateCache ∧
       (v1TemplateSubmit st ext inp).refreshes = st.refreshes + 1 ∧
       jsTrim inp.templateName ∈ (v1TemplateSubmit st ext inp).templateCache ∧
       (∀ c, st.cachedToken = some c → inp.templateName ≠ "" →
         (vsTemplateSubmit st ext inp).refreshes = st.refreshes + 1 ∧
         inp.templateName ∈ (vsTemplateSubmit st ext inp).templateCache))) ∧
    (∀ r, ext.fetch = .ok r → r.ok = false →
      ((v0TemplateSubmit st ext inp).refreshes = st.refreshes ∧
       (v1TemplateSubmit st ext inp).refreshes = st.refreshes ∧
       (vsTemplateSubmit st ext inp).refreshes = st.refreshes)) := by
  constructor
  · intro hf
    refine ⟨?_, ?_, ?_, ?_, ?_⟩
    · unfold v0TemplateSubmit
      rw [hu, hm, hf]
      try dsimp only
      rw [if_neg (by simp [hname, hfile, hurl])]
      try dsimp only
      exact loadTemplates0_refreshes_some _ _ u rfl
    · unfold v0TemplateSubmit
      rw [hu, hm, hf, hread]
      try dsimp only
      rw [if_neg (by simp [hname, hfile, hurl])]
      try dsimp only
      exact mem_loadTemplates0_cache _ u _ rfl (mem_addTemplate _ _)
    · unfold v1TemplateSubmit
      rw [hu, hm, hf]
      try dsimp only
      rw [if_neg (by simp [hname, hfile])]
      try dsimp only
      exact loadTemplates1_refreshes_some _ _ u rfl
    · unfold v1TemplateSubmit
      rw [hu, hm, hf, hread]
      try dsimp only
      rw [if_neg (by simp [hname, hfile])]
      try dsimp only
      exact mem_loadTemplates1_cache _ u _ rfl (mem_addTemplate _ _)
    · intro c hc hn
      unfold vsTemplateSubmit vsRefreshHack vsAuthCallback
      rw [hc, hf]
      try dsimp only
      rw [if_neg (by simp [hn, hfile])]
      try dsimp only
      rw [if_pos rfl]
      try dsimp only
      rw [hu, hm, hread]
      try dsimp only
      exact ⟨rfl, mem_addTemplate _ _⟩
  · intro r hf hok
    refine ⟨?_, ?_, ?_⟩
    · unfold v0TemplateSubmit
      rw [hu, hm, hf]
      try dsimp only
      rw [if_neg (by simp [hname, hfile, hurl])]
      try dsimp only
      rw [if_neg (by simp [hok])]
    · unfold v1TemplateSubmit
      rw [hu, hm, hf]
      try dsimp only
      rw [if_neg (by simp [hname, hfile])]
      try dsimp only
      rw [if_neg (by simp [hok])]
    · unfold vsTemplateSubmit
      cases hcc : st.cachedToken with
      | none => rfl
      | some c =>
        rw [hf]
        try dsimp only
        by_cases hv : inp.templateName = "" ∨ inp.hasFile = false
        · rw [if_pos hv]
        · rw [if_neg hv]
          try dsimp only
          rw [if_neg (by simp [hok])]

/-- Witness for C4 at the concrete signed-in state and valid inputs with a
2xx response. -/
theorem C4_witness :
    (demoOkExt.fetch = .ok { ok := true, body := "done" } →
      ((v0TemplateSubmit vsDemoSignedIn demoOkExt demoTemplate).refreshes =
          vsDemoSignedIn.refreshes + 1 ∧
       jsTrim demoTemplate.templateName ∈
          (v0TemplateSubmit vsDemoSignedIn demoOkExt demoTemplate).templateCache ∧
       (v1TemplateSubmit vsDemoSignedIn demoOkExt demoTemplate).refreshes =
          vsDemoSignedIn.refreshes + 1 ∧
       jsTrim demoTemplate.templateName ∈
          (v1TemplateSubmit vsDemoSignedIn demoOkExt demoTemplate).templateCache ∧
       (∀ c, vsDemoSignedIn.cachedToken = some c →
          demoTemplate.templateName ≠ "" →
         (vsTemplateSubmit vsDemoSignedIn demoOkExt demoTemplate).refreshes =
            vsDemoSignedIn.refreshes + 1 ∧
         demoTemplate.templateName ∈
            (vsTemplateSubmit vsDemoSignedIn demoOkExt demoTemplate).templateCache))) ∧
    (∀ r, demoOkExt.fetch = .ok r → r.ok = false →
      ((v0TemplateSubmit vsDemoSignedIn demoOkExt demoTemplate).refreshes =
          vsDemoSignedIn.refreshes ∧
       (v1TemplateSubmit vsDemoSignedIn demoOkExt demoTemplate).refreshes =
          vsDemoSignedIn.refreshes ∧
       (vsTemplateSubmit vsDemoSignedIn demoOkExt demoTemplate).refreshes =
          vsDemoSignedIn.refreshes)) :=
  C4_create_triggers_refresh vsDemoSignedIn demoOkExt demoTemplate
    "u" "fresh" "done" rfl rfl (by decide) rfl (by decide) rfl

end QuestionnaireApp
